import Mathlib

/-!
Verification of the `loops-expo` presentational components `Button`
(src/unnamed/part_000) and `AppText` (src/components/AppText.tsx).

Both components are pure: they map style-selection props to a list of
utility classes (via `tw.style`, which drops falsy entries and splits
every kept string on spaces) and render a fixed element tree.  We embed
the prop types as inductive enumerations, the lookup tables as total
functions on those enumerations, and `tw.style` as a filter-then-split
over optional class strings.
-/

namespace Loops

/-- The color constants of the Button module (`COLORS`). -/
structure Colors where
  primary : String
  action : String
  light : String
  white : String
  black : String
  gray : String
  transparent : String
deriving DecidableEq, Repr

/-- The constant `COLORS = { primary: '#F02C56', ... }`. -/
def COLORS : Colors :=
  { primary := "#F02C56"
  , action := "#0095f6"
  , light := "#f1f1f1"
  , white := "#ffffff"
  , black := "#000000"
  , gray := "#8e8e8e"
  , transparent := "transparent" }

/-- The union `type ButtonSize = 'small' | 'medium' | 'large' | 'xlarge'`. -/
inductive ButtonSize
  | small
  | medium
  | large
  | xlarge
deriving DecidableEq, Repr, Fintype

/-- The union `type ButtonTheme = 'primary' | 'action' | 'light' |
'primary-outlined' | 'action-outlined' | 'light-outlined'`. -/
inductive ButtonTheme
  | primary
  | action
  | light
  | primaryOutlined
  | actionOutlined
  | lightOutlined
deriving DecidableEq, Repr, Fintype

/-- The string value each `ButtonTheme` member stands for in the source. -/
def themeName : ButtonTheme → String
  | .primary => "primary"
  | .action => "action"
  | .light => "light"
  | .primaryOutlined => "primary-outlined"
  | .actionOutlined => "action-outlined"
  | .lightOutlined => "light-outlined"

/-- One entry of `sizeConfig`. -/
structure SizeEntry where
  paddingX : String
  paddingY : String
  textSize : String
  rounded : String
deriving DecidableEq, Repr

/-- The table `const sizeConfig` with its four entries. -/
def sizeConfig : ButtonSize → SizeEntry
  | .small =>
    { paddingX := "px-3", paddingY := "py-2", textSize := "text-sm", rounded := "rounded-md" }
  | .medium =>
    { paddingX := "px-4", paddingY := "py-3", textSize := "text-base", rounded := "rounded-lg" }
  | .large =>
    { paddingX := "px-6", paddingY := "py-4", textSize := "text-lg", rounded := "rounded-lg" }
  | .xlarge =>
    { paddingX := "px-8", paddingY := "py-5", textSize := "text-xl", rounded := "rounded-xl" }

/-- One entry of `themeConfig`; `pressedBg`, `disabledBg` and `disabledText`
are optional fields in the TypeScript record type. -/
structure ThemeEntry where
  bg : String
  border : String
  text : String
  pressedBg : Option String
  disabledBg : Option String
  disabledText : Option String
deriving DecidableEq, Repr

/-- The table `const themeConfig: Record<ButtonTheme, ...>`.  The
template literals `bg-[${COLORS.primary}]` etc. are kept as the string
concatenations they evaluate to. -/
def themeConfig : ButtonTheme → ThemeEntry
  | .primary =>
    { bg := "bg-[" ++ COLORS.primary ++ "]"
    , border := "border-[" ++ COLORS.primary ++ "]"
    , text := "text-white"
    , pressedBg := some "bg-[#d02647]"
    , disabledBg := some "bg-[#f59db3]"
    , disabledText := none }
  | .action =>
    { bg := "bg-[" ++ COLORS.action ++ "]"
    , border := "border-[" ++ COLORS.action ++ "]"
    , text := "text-white"
    , pressedBg := some "bg-[#0077cc]"
    , disabledBg := some "bg-[#7fc7fa]"
    , disabledText := none }
  | .light =>
    { bg := "bg-[" ++ COLORS.light ++ "]"
    , border := "border-[" ++ COLORS.light ++ "]"
    , text := "text-black"
    , pressedBg := some "bg-[#e0e0e0]"
    , disabledBg := some "bg-[#f8f8f8]"
    , disabledText := none }
  | .primaryOutlined =>
    { bg := "bg-transparent"
    , border := "border-[" ++ COLORS.primary ++ "]"
    , text := "text-[" ++ COLORS.primary ++ "]"
    , pressedBg := some "bg-[#fef0f3]"
    , disabledBg := some "bg-transparent"
    , disabledText := some "text-[#f59db3]" }
  | .actionOutlined =>
    { bg := "bg-transparent"
    , border := "border-[" ++ COLORS.action ++ "]"
    , text := "text-[" ++ COLORS.action ++ "]"
    , pressedBg := some "bg-[#e6f5ff]"
    , disabledBg := some "bg-transparent"
    , disabledText := some "text-[#7fc7fa]" }
  | .lightOutlined =>
    { bg := "bg-transparent"
    , border := "border-[" ++ COLORS.gray ++ "]"
    , text := "text-gray-800"
    , pressedBg := some "bg-[#f8f8f8]"
    , disabledBg := some "bg-transparent"
    , disabledText := some "text-gray-400" }

/-- Splitting a class string on spaces, by structural recursion on the
character list (kernel-reducible; agrees with splitting on a single
space for the space-separated class strings the components use). -/
def splitAux : List Char → List Char → List String
  | [], acc => [String.mk acc.reverse]
  | c :: cs, acc =>
    if c = ' ' then String.mk acc.reverse :: splitAux cs []
    else splitAux cs (c :: acc)

/-- The space-separated utility classes of a class string. -/
def splitClasses (s : String) : List String :=
  splitAux s.toList []

/-- The call `tw.style(...)`: falsy entries (`false`, `undefined`) are dropped and
every kept argument is split into its space-separated utility classes.
An entry that the source guards with `cond && s` is embedded as
`if cond then s else none`. -/
def twStyle (items : List (Option String)) : List String :=
  (items.filterMap id).flatMap splitClasses

/-- The props of `Button` that influence its rendering (the `onPress`,
`style` and `...rest` passthroughs carry no class information).  Defaults
are those of the destructuring pattern in the source. -/
structure ButtonProps where
  title : String
  theme : ButtonTheme := .primaryOutlined
  size : ButtonSize := .medium
  disabled : Bool := false
  loading : Bool := false
  full : Bool := false
deriving DecidableEq, Repr

/-- The local `const isDisabled = disabled || loading`. -/
def isDisabled (p : ButtonProps) : Bool :=
  p.disabled || p.loading

/-- Whether `pat` is a prefix of `cs` (character lists). -/
def isPrefixList : List Char → List Char → Bool
  | [], _ => true
  | _ :: _, [] => false
  | a :: as, b :: bs => a = b && isPrefixList as bs

/-- Whether `pat` occurs somewhere in `cs`. -/
def includesAux (pat : List Char) : List Char → Bool
  | [] => isPrefixList pat []
  | c :: cs => isPrefixList pat (c :: cs) || includesAux pat cs

/-- The test `s.includes(sub)` on strings, as JavaScript's
`String.prototype.includes`. -/
def stringIncludes (s sub : String) : Bool :=
  includesAux sub.toList s.toList

/-- The `getSpinnerColor` closure of `Button`, an explicit function of the
`theme` prop it captures. -/
def getSpinnerColor (theme : ButtonTheme) : String :=
  if stringIncludes (themeName theme) "outlined" then
    if themeName theme = "primary-outlined" then COLORS.primary
    else if themeName theme = "action-outlined" then COLORS.action
    else COLORS.gray
  else if themeName theme = "light" then COLORS.black
  else COLORS.white

/-- The class list `tw.style(...)` computes for the `Pressable`, as a
function of the captured props and of the `pressed` render state. -/
def pressableStyle (theme : ButtonTheme) (size : ButtonSize)
    (isDis : Bool) (full : Bool) (pressed : Bool) : List String :=
  twStyle
    [ some "flex-row items-center justify-center border-[1px]"
    , some (sizeConfig size).paddingX
    , some (sizeConfig size).paddingY
    , some (sizeConfig size).rounded
    , some (themeConfig theme).bg
    , some (themeConfig theme).border
    , if pressed && !isDis then (themeConfig theme).pressedBg else none
    , if isDis then (themeConfig theme).disabledBg else none
    , if isDis then some "opacity-60" else none
    , if full then some "flex-1" else none ]

/-- The class list `tw.style(...)` computes for the label `Text`. -/
def labelStyle (theme : ButtonTheme) (size : ButtonSize) (isDis : Bool) : List String :=
  twStyle
    [ some "font-semibold tracking-wide"
    , some (sizeConfig size).textSize
    , some (themeConfig theme).text
    , if isDis then (themeConfig theme).disabledText else none ]

/-- The single child of the `Pressable`: either the `ActivityIndicator`
(with its `size` and `color` attributes) or the label `Text` (with its
style classes and its string content). -/
inductive ButtonChild
  | activityIndicator (size : String) (color : String)
  | text (style : List String) (content : String)
deriving DecidableEq, Repr

/-- The rendered `Pressable`: its `disabled` flag, its style as a function
of the `pressed` state, and its single child. -/
structure PressableRender where
  disabled : Bool
  style : Bool → List String
  child : ButtonChild

/-- The body of `Button`: the element tree returned for a given set of
props. -/
def renderButton (p : ButtonProps) : PressableRender :=
  { disabled := isDisabled p
  , style := fun pressed => pressableStyle p.theme p.size (isDisabled p) p.full pressed
  , child :=
      if p.loading then
        .activityIndicator "small" (getSpinnerColor p.theme)
      else
        .text (labelStyle p.theme p.size (isDisabled p)) p.title }

/-- The union `size?: 'small' | 'medium' | 'large' | 'heading'` of `AppText`. -/
inductive TextSize
  | small
  | medium
  | large
  | heading
deriving DecidableEq, Repr, Fintype

/-- The union `color?: 'primary' | 'secondary' | 'tertiary'` of `AppText`. -/
inductive TextColor
  | primary
  | secondary
  | tertiary
deriving DecidableEq, Repr, Fintype

/-- The props of `AppText`; `children` is the pass-through content and
`className` the pass-through class string.  Defaults are those of the
destructuring pattern in the source. -/
structure AppTextProps where
  children : String
  size : TextSize := .medium
  bold : Bool := false
  color : TextColor := .primary
  center : Bool := false
  className : Option String := none
deriving DecidableEq, Repr

/-- The class list `tw.style(...)` computes for the `Text` of `AppText`. -/
def appTextStyle (p : AppTextProps) : List String :=
  twStyle
    [ if p.size = .small then some "text-sm mb-2" else none
    , if p.size = .medium then some "text-base mb-3" else none
    , if p.size = .large then some "text-lg mb-4" else none
    , if p.size = .heading then some "text-xl mb-5" else none
    , if p.bold then some "font-bold" else none
    , if p.color = .primary then some "text-black" else none
    , if p.color = .secondary then some "text-gray-500" else none
    , if p.color = .tertiary then some "text-gray-400" else none
    , if p.center then some "text-center" else none
    , p.className ]

/-- The rendered `Text` of `AppText`: its style classes and its
content. -/
structure TextRender where
  style : List String
  children : String
deriving DecidableEq, Repr

/-- The body of `AppText`. -/
def renderAppText (p : AppTextProps) : TextRender :=
  { style := appTextStyle p, children := p.children }

/-- Modelled from the spec: the spec claims the components' visual
attributes are exactly padding, rounded corners, background color, text
color and opacity; this list is the part of the two components' class
vocabulary that falls in those five categories. -/
def specClaimedClassSet : List String :=
  [ "px-3", "px-4", "px-6", "px-8", "py-2", "py-3", "py-4", "py-5"
  , "rounded-md", "rounded-lg", "rounded-xl"
  , "bg-[#F02C56]", "bg-[#0095f6]", "bg-[#f1f1f1]", "bg-transparent"
  , "bg-[#d02647]", "bg-[#0077cc]", "bg-[#e0e0e0]", "bg-[#fef0f3]"
  , "bg-[#e6f5ff]", "bg-[#f8f8f8]", "bg-[#f59db3]", "bg-[#7fc7fa]"
  , "text-white", "text-black", "text-[#F02C56]", "text-[#0095f6]"
  , "text-gray-800", "text-[#f59db3]", "text-[#7fc7fa]", "text-gray-400"
  , "text-gray-500"
  , "opacity-60" ]

/-- The full class vocabulary the two components can produce: the
spec-claimed categories plus the flex-layout and alignment, border,
font-weight, letter-spacing, text-size and margin classes that also
occur in the source. -/
def extendedClassVocab : List String :=
  specClaimedClassSet ++
  [ "flex-row", "items-center", "justify-center", "flex-1", "text-center"
  , "border-[1px]", "border-[#F02C56]", "border-[#0095f6]", "border-[#f1f1f1]"
  , "border-[#8e8e8e]"
  , "font-semibold", "font-bold", "tracking-wide"
  , "text-sm", "text-base", "text-lg", "text-xl"
  , "mb-2", "mb-3", "mb-4", "mb-5" ]

/-- Unfolding lemma: `twStyle` processes one entry at a time. -/
theorem twStyle_cons (x : Option String) (xs : List (Option String)) :
    twStyle (x :: xs) =
      (match x with | some s => splitClasses s | none => []) ++ twStyle xs := by
  cases x <;> simp [twStyle]

theorem splitClasses_textSmMb : splitClasses "text-sm mb-2" = ["text-sm", "mb-2"] := rfl

theorem splitClasses_textBaseMb : splitClasses "text-base mb-3" = ["text-base", "mb-3"] := rfl

theorem splitClasses_textLgMb : splitClasses "text-lg mb-4" = ["text-lg", "mb-4"] := rfl

theorem splitClasses_textXlMb : splitClasses "text-xl mb-5" = ["text-xl", "mb-5"] := rfl

theorem splitClasses_fontBold : splitClasses "font-bold" = ["font-bold"] := rfl

theorem splitClasses_textBlack : splitClasses "text-black" = ["text-black"] := rfl

theorem splitClasses_textGray500 : splitClasses "text-gray-500" = ["text-gray-500"] := rfl

theorem splitClasses_textGray400 : splitClasses "text-gray-400" = ["text-gray-400"] := rfl

theorem splitClasses_textCenter : splitClasses "text-center" = ["text-center"] := rfl

/-- Helper for C1, over the scalar parameters of the style computation:
in the disabled state the pressable style carries the opacity class and
the theme's disabled background, and the label style carries the theme's
disabled text color exactly when the theme defines one. -/
theorem disabled_style_facts :
    ∀ (t : ButtonTheme) (s : ButtonSize) (f pressed : Bool),
      "opacity-60" ∈ pressableStyle t s true f pressed ∧
      (∀ c ∈ (themeConfig t).disabledBg, c ∈ pressableStyle t s true f pressed) ∧
      (∀ c ∈ (themeConfig t).disabledText, c ∈ labelStyle t s true) ∧
      ((themeConfig t).disabledText = none → labelStyle t s true = labelStyle t s false) := by
  decide

/-- Helper for C7, over the scalar parameters of the style computation. -/
theorem pressedBg_facts :
    ∀ (t : ButtonTheme) (s : ButtonSize) (isDis f pressed : Bool),
      ∀ c ∈ (themeConfig t).pressedBg,
        (c ∈ pressableStyle t s isDis f pressed ↔ (pressed = true ∧ isDis = false)) := by
  decide

/-- C1: if `disabled` or `loading` is set, the pressable style includes
`opacity-60` and the theme's `disabledBg` class, the `Pressable` is
rendered with its `disabled` flag set, and the theme's `disabledText`
class is applied to the label style exactly for the themes that define
one. -/
theorem button_disabled_state_rendering (p : ButtonProps) (pressed : Bool)
    (h : p.disabled = true ∨ p.loading = true) :
    "opacity-60" ∈ pressableStyle p.theme p.size (isDisabled p) p.full pressed ∧
    (∀ c ∈ (themeConfig p.theme).disabledBg,
      c ∈ pressableStyle p.theme p.size (isDisabled p) p.full pressed) ∧
    (renderButton p).disabled = true ∧
    (∀ c ∈ (themeConfig p.theme).disabledText,
      c ∈ labelStyle p.theme p.size (isDisabled p)) ∧
    ((themeConfig p.theme).disabledText = none →
      labelStyle p.theme p.size (isDisabled p) = labelStyle p.theme p.size false) := by
  obtain ⟨title, theme, size, d, l, f⟩ := p
  have hdl : (d || l) = true := by rcases h with h | h <;> simp_all
  obtain ⟨h1, h2, h3, h4⟩ := disabled_style_facts theme size f pressed
  refine ⟨?_, ?_, ?_, ?_, ?_⟩
  · simpa [isDisabled, hdl] using h1
  · simpa [isDisabled, hdl] using h2
  · simp [renderButton, isDisabled, hdl]
  · simpa [isDisabled, hdl] using h3
  · simpa [isDisabled, hdl] using h4

theorem button_disabled_state_rendering_witness :
    (true = true ∨ false = true) ∧
    "opacity-60" ∈ pressableStyle ButtonTheme.primaryOutlined ButtonSize.medium true false false :=
  ⟨Or.inl rfl,
    (button_disabled_state_rendering
      { title := "t", disabled := true } false (Or.inl rfl)).1⟩

/-- C2: the `Pressable`'s child is the `ActivityIndicator` exactly when
`loading` is set, and otherwise it is a single `Text` whose content is
the `title` prop. -/
theorem button_child_loading (p : ButtonProps) :
    ((renderButton p).child =
        ButtonChild.activityIndicator "small" (getSpinnerColor p.theme) ↔
      p.loading = true) ∧
    (p.loading = false →
      (renderButton p).child =
        ButtonChild.text (labelStyle p.theme p.size (isDisabled p)) p.title) := by
  obtain ⟨title, theme, size, d, l, f⟩ := p
  cases l <;> simp [renderButton]

theorem button_child_loading_witness :
    (renderButton { title := "t" }).child =
      ButtonChild.text (labelStyle ButtonTheme.primaryOutlined ButtonSize.medium false) "t" :=
  (button_child_loading { title := "t" }).2 rfl

/-- C3 (counterexample): the default `AppText` render contains the margin
class `mb-3`, which lies outside the spec's claimed attribute set of
padding, rounded corners, background color, text color and opacity. -/
theorem class_categories_counterexample :
    "mb-3" ∈ appTextStyle { children := "x" } ∧ "mb-3" ∉ specClaimedClassSet := by
  decide

/-- C3 (amended): every class the components produce from their
style-selection props lies in the spec's claimed categories extended
with margin, text-size, font-weight, letter-spacing, border, alignment
and flex-layout classes (for `AppText`, with the pass-through
`className` prop unset). -/
theorem produced_class_vocabulary :
    (∀ (t : ButtonTheme) (s : ButtonSize) (isDis f pressed : Bool),
      ∀ c ∈ pressableStyle t s isDis f pressed, c ∈ extendedClassVocab) ∧
    (∀ (t : ButtonTheme) (s : ButtonSize) (isDis : Bool),
      ∀ c ∈ labelStyle t s isDis, c ∈ extendedClassVocab) ∧
    (∀ (sz : TextSize) (b : Bool) (co : TextColor) (ce : Bool),
      ∀ c ∈ appTextStyle
        { children := "", size := sz, bold := b, color := co, center := ce, className := none },
        c ∈ extendedClassVocab) := by
  decide

theorem produced_class_vocabulary_witness :
    "px-4" ∈ pressableStyle ButtonTheme.primary ButtonSize.medium false false false ∧
    "px-4" ∈ extendedClassVocab :=
  ⟨by decide,
    produced_class_vocabulary.1 ButtonTheme.primary ButtonSize.medium false false false
      "px-4" (by decide)⟩

/-- C4: the theme and size lookup tables are total: every theme entry
has non-empty `bg`, `border` and `text` classes, and every size entry
has non-empty `paddingX`, `paddingY`, `textSize` and `rounded`
classes. -/
theorem config_tables_total :
    (∀ t : ButtonTheme, 0 < (themeConfig t).bg.length ∧
      0 < (themeConfig t).border.length ∧ 0 < (themeConfig t).text.length) ∧
    (∀ s : ButtonSize, 0 < (sizeConfig s).paddingX.length ∧
      0 < (sizeConfig s).paddingY.length ∧ 0 < (sizeConfig s).textSize.length ∧
      0 < (sizeConfig s).rounded.length) := by
  decide

/-- C5: `AppText` composes its classes exactly per its table: one size
contribution, `font-bold` iff `bold`, one color contribution,
`text-center` iff `center`, then the pass-through `className`. -/
theorem appText_style_table (p : AppTextProps) :
    appTextStyle p =
      (match p.size with
        | TextSize.small => ["text-sm", "mb-2"]
        | TextSize.medium => ["text-base", "mb-3"]
        | TextSize.large => ["text-lg", "mb-4"]
        | TextSize.heading => ["text-xl", "mb-5"]) ++
      (if p.bold then ["font-bold"] else []) ++
      (match p.color with
        | TextColor.primary => ["text-black"]
        | TextColor.secondary => ["text-gray-500"]
        | TextColor.tertiary => ["text-gray-400"]) ++
      (if p.center then ["text-center"] else []) ++
      (match p.className with
        | some c => splitClasses c
        | none => []) := by
  obtain ⟨ch, sz, b, co, ce, cn⟩ := p
  cases sz <;> cases b <;> cases co <;> cases ce <;> cases cn <;>
    simp [appTextStyle, twStyle, splitClasses_textSmMb, splitClasses_textBaseMb,
      splitClasses_textLgMb, splitClasses_textXlMb, splitClasses_fontBold,
      splitClasses_textBlack, splitClasses_textGray500, splitClasses_textGray400,
      splitClasses_textCenter]

/-- C6: both components are deterministic functions of their props. -/
theorem render_deterministic (p q : ButtonProps) (r s : AppTextProps)
    (hpq : p = q) (hrs : r = s) :
    renderButton p = renderButton q ∧ renderAppText r = renderAppText s := by
  subst hpq
  subst hrs
  exact ⟨rfl, rfl⟩

theorem render_deterministic_witness :
    renderButton { title := "t" } = renderButton { title := "t" } ∧
    renderAppText { children := "x" } = renderAppText { children := "x" } :=
  render_deterministic _ _ _ _ rfl rfl

/-- C7: the theme's `pressedBg` class is in the pressable style exactly
when the button is pressed and neither disabled nor loading. -/
theorem button_pressed_background (p : ButtonProps) (pressed : Bool) :
    ∀ c ∈ (themeConfig p.theme).pressedBg,
      (c ∈ pressableStyle p.theme p.size (isDisabled p) p.full pressed ↔
        (pressed = true ∧ isDisabled p = false)) := by
  obtain ⟨title, theme, size, d, l, f⟩ := p
  intro c hc
  simpa [isDisabled] using pressedBg_facts theme size (d || l) f pressed c hc

theorem button_pressed_background_witness :
    "bg-[#d02647]" ∈ (themeConfig ButtonTheme.primary).pressedBg ∧
    ("bg-[#d02647]" ∈ pressableStyle ButtonTheme.primary ButtonSize.medium false false true ↔
      (true = true ∧ false = false)) :=
  ⟨by decide,
    button_pressed_background { title := "t", theme := ButtonTheme.primary } true
      "bg-[#d02647]" (by decide)⟩

/-- C8: with every optional prop omitted, `Button` renders enabled, not
full-width, as theme `primary-outlined` at size `medium`, and `AppText`
renders with `text-base mb-3 text-black`. -/
theorem default_props_render :
    (renderButton { title := "go" }).disabled = false ∧
    (renderButton { title := "go" }).style false =
      ["flex-row", "items-center", "justify-center", "border-[1px]", "px-4", "py-3",
       "rounded-lg", "bg-transparent", "border-[#F02C56]"] ∧
    (renderButton { title := "go" }).child =
      ButtonChild.text ["font-semibold", "tracking-wide", "text-base", "text-[#F02C56]"] "go" ∧
    "flex-1" ∉ (renderButton { title := "go" }).style false ∧
    appTextStyle { children := "x" } = ["text-base", "mb-3", "text-black"] := by
  decide

/-- C9: the `Pressable`'s `disabled` flag is `disabled || loading`, so a
loading button is non-interactive even when `disabled` is false. -/
theorem pressable_disabled_flag (p : ButtonProps) :
    (renderButton p).disabled = (p.disabled || p.loading) ∧
    (p.loading = true → (renderButton p).disabled = true) := by
  obtain ⟨title, theme, size, d, l, f⟩ := p
  cases d <;> cases l <;> simp [renderButton, isDisabled]

theorem pressable_disabled_flag_witness :
    (renderButton { title := "t", loading := true }).disabled = true :=
  (pressable_disabled_flag { title := "t", loading := true }).2 rfl

/-- C10: `getSpinnerColor` maps each theme to its documented spinner
color, and this color is given to the `ActivityIndicator` whenever
`loading` is set. -/
theorem spinner_color_table (p : ButtonProps) (h : p.loading = true) :
    getSpinnerColor ButtonTheme.primaryOutlined = "#F02C56" ∧
    getSpinnerColor ButtonTheme.actionOutlined = "#0095f6" ∧
    getSpinnerColor ButtonTheme.lightOutlined = "#8e8e8e" ∧
    getSpinnerColor ButtonTheme.light = "#000000" ∧
    getSpinnerColor ButtonTheme.primary = "#ffffff" ∧
    getSpinnerColor ButtonTheme.action = "#ffffff" ∧
    (renderButton p).child =
      ButtonChild.activityIndicator "small" (getSpinnerColor p.theme) := by
  obtain ⟨title, theme, size, d, l, f⟩ := p
  simp only at h
  refine ⟨by decide, by decide, by decide, by decide, by decide, by decide, ?_⟩
  simp [renderButton, h]

theorem spinner_color_table_witness :
    (({ title := "t", loading := true } : ButtonProps).loading = true) ∧
    (renderButton { title := "t", loading := true }).child =
      ButtonChild.activityIndicator "small" "#F02C56" :=
  ⟨rfl,
    ((spinner_color_table { title := "t", loading := true } rfl).2.2.2.2.2.2).trans
      (by decide)⟩

end Loops
